import Mathlib

/-!
Verification of the Risk-Radar risk-scoring and exposure-propagation engine.

The JavaScript sources embedded here are
`backend/src/services/risk-scoring.js` and the exposure service
(`calculateOEMExposure` / `getAffectedOEMs` / `calculateCommodityExposure` /
`forecastDisruption` and helpers).  JavaScript numbers are modelled as exact
rationals; where the code can produce IEEE special values (division by zero
inside `calculateDisruptionProbability` when the remaining horizon is 0) we
use an explicit value type `JsVal` with the IEEE-754 rules for the operations
the code performs.
-/

namespace RiskRadar

/-- A JavaScript number: a finite rational, an infinity, or NaN. -/
inductive JsVal where
  | num : ℚ → JsVal
  | posInf : JsVal
  | negInf : JsVal
  | nan : JsVal
deriving DecidableEq, Repr

/-- IEEE multiplication as performed by JS `*`. -/
def jsMul : JsVal → JsVal → JsVal
  | .nan, _ => .nan
  | _, .nan => .nan
  | .num a, .num b => .num (a * b)
  | .num a, .posInf => if 0 < a then .posInf else if a < 0 then .negInf else .nan
  | .num a, .negInf => if 0 < a then .negInf else if a < 0 then .posInf else .nan
  | .posInf, .num b => if 0 < b then .posInf else if b < 0 then .negInf else .nan
  | .negInf, .num b => if 0 < b then .negInf else if b < 0 then .posInf else .nan
  | .posInf, .posInf => .posInf
  | .posInf, .negInf => .negInf
  | .negInf, .posInf => .negInf
  | .negInf, .negInf => .posInf

/-- IEEE subtraction as performed by JS `-`. -/
def jsSub : JsVal → JsVal → JsVal
  | .nan, _ => .nan
  | _, .nan => .nan
  | .num a, .num b => .num (a - b)
  | .num _, .posInf => .negInf
  | .num _, .negInf => .posInf
  | .posInf, .num _ => .posInf
  | .negInf, .num _ => .negInf
  | .posInf, .negInf => .posInf
  | .negInf, .posInf => .negInf
  | .posInf, .posInf => .nan
  | .negInf, .negInf => .nan

/-- IEEE division as performed by JS `/` (finite / 0 gives a signed infinity,
0 / 0 gives NaN). -/
def jsDiv : JsVal → JsVal → JsVal
  | .nan, _ => .nan
  | _, .nan => .nan
  | .num a, .num b =>
      if b = 0 then (if 0 < a then .posInf else if a < 0 then .negInf else .nan)
      else .num (a / b)
  | .num _, .posInf => .num 0
  | .num _, .negInf => .num 0
  | .posInf, .num b => if b < 0 then .negInf else .posInf
  | .negInf, .num b => if b < 0 then .posInf else .negInf
  | .posInf, .posInf => .nan
  | .posInf, .negInf => .nan
  | .negInf, .posInf => .nan
  | .negInf, .negInf => .nan

/-- JS `Math.min` (NaN if either argument is NaN). -/
def jsMin : JsVal → JsVal → JsVal
  | .nan, _ => .nan
  | _, .nan => .nan
  | .num a, .num b => .num (min a b)
  | .num a, .posInf => .num a
  | .num _, .negInf => .negInf
  | .posInf, v => v
  | .negInf, _ => .negInf

/-- JS `Math.max` (NaN if either argument is NaN). -/
def jsMax : JsVal → JsVal → JsVal
  | .nan, _ => .nan
  | _, .nan => .nan
  | .num a, .num b => .num (max a b)
  | .num a, .negInf => .num a
  | .num _, .posInf => .posInf
  | .negInf, v => v
  | .posInf, _ => .posInf

/-- JS `<` on numbers (false whenever NaN is involved). -/
def jsLt : JsVal → JsVal → Bool
  | .num a, .num b => decide (a < b)
  | .num _, .posInf => true
  | .negInf, .num _ => true
  | .negInf, .posInf => true
  | _, _ => false

/-- The clamp `Math.max(0, Math.min(1, x))` used throughout the scoring code. -/
def clamp01 (x : ℚ) : ℚ := max 0 (min 1 x)

/-- Zero-pad a natural number below 1000 to three decimal digits. -/
def pad3 (n : ℕ) : String :=
  if n < 10 then "00" ++ Nat.repr n
  else if n < 100 then "0" ++ Nat.repr n
  else Nat.repr n

/-- Round to the nearest integer, ties upward (ECMA `toFixed` picks the larger
candidate when two are equally near). -/
def roundHalfUp (q : ℚ) : ℤ := ⌊q + 1/2⌋

/-- Render `n` thousandths as a decimal string with exactly three fraction
digits, e.g. `fmtThousandths 42 = "0.042"`. -/
def fmtThousandths (n : ℕ) : String :=
  Nat.repr (n / 1000) ++ "." ++ pad3 (n % 1000)

/-- JS `Number.prototype.toFixed(3)`. -/
def jsToFixed3 : JsVal → String
  | .num q =>
      if q < 0 then "-" ++ fmtThousandths (roundHalfUp (1000 * (-q))).toNat
      else fmtThousandths (roundHalfUp (1000 * q)).toNat
  | .posInf => "Infinity"
  | .negInf => "-Infinity"
  | .nan => "NaN"

/-! ### risk-scoring.js : configuration tables -/

/-- Embeds `WEIGHTS.severity[event_type] || 0.65` (risk-scoring.js line 110). -/
def severityWeight (event_type : String) : ℚ :=
  if event_type = "strike" then 85/100
  else if event_type = "bankruptcy" then 90/100
  else if event_type = "environmental_shutdown" then 75/100
  else if event_type = "regulatory_action" then 70/100
  else if event_type = "infrastructure_outage" then 60/100
  else if event_type = "labor_protest" then 65/100
  else 65/100

/-- Embeds `SEVERITY_SCALE[event_type] || { min: 1, max: 3 }` as a (min, max) pair. -/
def severityScale (event_type : String) : ℕ × ℕ :=
  if event_type = "strike" then (3, 5)
  else if event_type = "bankruptcy" then (4, 5)
  else if event_type = "environmental_shutdown" then (2, 4)
  else if event_type = "regulatory_action" then (2, 4)
  else if event_type = "infrastructure_outage" then (1, 3)
  else if event_type = "labor_protest" then (1, 3)
  else (1, 3)

/-- Embeds `WEIGHTS.substitutionDifficultyMultiplier[d] || 1.0`. -/
def substitutionDifficultyMultiplier (d : String) : ℚ :=
  if d = "high" then 3
  else if d = "medium" then 2
  else if d = "low" then 1
  else 1

/-! ### risk-scoring.js : calculateEventSeverity -/

/-- The `indicators` object of an event; `participants` is `none` when the
field is absent (JS `undefined`), in which case every numeric comparison on it
is false. -/
structure Indicators where
  scope : String := ""
  participants : Option ℚ := none
  historical_impact : String := ""
deriving DecidableEq, Repr

structure EventData where
  event_type : String := ""
  indicators : Indicators := {}
deriving DecidableEq, Repr

/-- JS `participants > c` where `participants` may be `undefined`. -/
def optGt (o : Option ℚ) (c : ℚ) : Bool :=
  match o with
  | some p => decide (c < p)
  | none => false

/-- The first guard of `calculateEventSeverity` (risk-scoring.js line 51). -/
def majorIndicator (i : Indicators) : Bool :=
  decide (i.scope = "major") || optGt i.participants 1000 ||
    decide (i.historical_impact = "high")

/-- The second guard of `calculateEventSeverity` (risk-scoring.js line 53). -/
def moderateIndicator (i : Indicators) : Bool :=
  decide (i.scope = "moderate") || optGt i.participants 500 ||
    decide (i.historical_impact = "medium")

/-- Embeds `calculateEventSeverity` (risk-scoring.js lines 42-59).
`Math.ceil((min + max) / 2)` on naturals is `(min + max + 1) / 2` in
truncated division. -/
def calculateEventSeverity (e : EventData) : ℕ :=
  let range := severityScale e.event_type
  let severity :=
    if majorIndicator e.indicators then range.2
    else if moderateIndicator e.indicators then (range.1 + range.2 + 1) / 2
    else range.1
  max 1 (min 5 severity)

/-! ### risk-scoring.js : calculateRiskScore and helpers -/

structure EventScoreData where
  event_type : String := "unknown"
  severity : ℚ := 3
  confidence : ℚ := 1/2
deriving DecidableEq, Repr

structure FacilityData where
  annual_capacity_tonnes : ℚ := 1000
deriving DecidableEq, Repr

structure RegionData where
  production_percentage : ℚ := 1/2
deriving DecidableEq, Repr

structure CommodityData where
  substitution_difficulty : String := "medium"
deriving DecidableEq, Repr

/-- Embeds `calculateRegionalProductionShare` (risk-scoring.js lines 77-80). -/
def calculateRegionalProductionShare (globalProduction regionProduction : ℚ) : ℚ :=
  min 1 (regionProduction / globalProduction)

/-- Embeds `calculateCommodityRisk` (risk-scoring.js lines 86-90):
`Math.min(2.0, baseMultiplier / 3.0)`. -/
def calculateCommodityRisk (c : CommodityData) : ℚ :=
  min 2 (substitutionDifficultyMultiplier c.substitution_difficulty / 3)

/-- The product of all `calculateRiskScore` factors other than the commodity
criticality factor (used to state how the latter scales the score). -/
def riskScorePreCommodity (e : EventScoreData) (f : FacilityData) (reg : RegionData)
    (timeDecay : ℚ) : ℚ :=
  ((e.severity / 5 * severityWeight e.event_type) * e.confidence * timeDecay) *
    calculateRegionalProductionShare 100 (reg.production_percentage * 100) *
    min 1 (100 / max f.annual_capacity_tonnes 10)

/-- Embeds `calculateRiskScore` (risk-scoring.js lines 96-152).  The time-decay
factor `Math.pow(0.95, daysAgo / 7)` is transcendental for general `daysAgo`,
so the already-computed decay factor is passed as the parameter `timeDecay`. -/
def calculateRiskScore (e : EventScoreData) (f : FacilityData) (reg : RegionData)
    (c : CommodityData) (timeDecay : ℚ) : ℚ :=
  let eventWeight := severityWeight e.event_type
  let severityNormalized := e.severity / 5
  let baseScore := severityNormalized * eventWeight
  let confidenceAdjusted := baseScore * e.confidence
  let timeAdjusted := confidenceAdjusted * timeDecay
  let regionalMultiplier :=
    calculateRegionalProductionShare 100 (reg.production_percentage * 100)
  let commodityRisk := calculateCommodityRisk c
  let capacityFactor := min 1 (100 / max f.annual_capacity_tonnes 10)
  clamp01 (timeAdjusted * regionalMultiplier * commodityRisk * capacityFactor)

/-! ### risk-scoring.js : calculateExposureScore -/

/-- The `supplyChainData` record consumed by `calculateExposureScore`
(defaults as in the JS destructuring). -/
structure ExposureData where
  commodity : String := ""
  dependency_percentage : ℚ := 10
  affected_tier1_suppliers : ℕ := 1
  alternative_sources : ℕ := 0
deriving DecidableEq, Repr

structure OEMData where
  oem_id : String := ""
  name : String := ""
deriving DecidableEq, Repr

/-- A Risk record as consumed by the scoring functions.  `days_until_start`
models `Math.floor((new Date(start_date) - Date.now()) / 86400000)`; it is
`none` when the risk has no `start_date`. -/
structure RiskData where
  id : String := ""
  title : String := ""
  severity : ℚ := 3
  confidence : ℚ := 1/2
  status : String := "active"
  days_until_start : Option ℤ := none
  expected_duration_days : ℚ := 14
deriving DecidableEq, Repr

/-- Embeds `calculateExposureScore` (risk-scoring.js lines 158-188).  `oemData` is
unused by the source body but kept for signature fidelity. -/
def calculateExposureScore (oemData : OEMData) (riskData : RiskData)
    (d : ExposureData) : ℚ :=
  let _ := oemData
  let base := (d.dependency_percentage / 100) * (riskData.severity / 5)
  let afterAlt :=
    if 0 < d.alternative_sources then
      base * max (1/10) (1 - (d.alternative_sources : ℚ) * (2/10))
    else base
  let afterSingle :=
    if d.affected_tier1_suppliers = 1 then afterAlt * (3/2) else afterAlt
  clamp01 afterSingle

/-! ### risk-scoring.js : calculateDisruptionProbability -/

/-- Embeds `calculateDisruptionProbability` (risk-scoring.js lines 194-229).
Computed with IEEE semantics: when the time horizon is 0 and the start date
lies in the past, `weeksUntilStart / timeHorizonWeeks` is a negative finite
value divided by zero, hence `-Infinity`, making the timeline factor
`+Infinity`. -/
def calculateDisruptionProbability (r : RiskData) (timeHorizonWeeks : ℚ) : JsVal :=
  let severityFactor := (r.severity / 5) * r.confidence
  let phaseFactor : ℚ := if r.status = "escalating" then 6/5 else 1
  let timelineFactor : JsVal :=
    match r.days_until_start with
    | none => .num (1/2)
    | some d =>
        let weeksUntilStart : ℚ := (d : ℚ) / 7
        if weeksUntilStart < timeHorizonWeeks then
          jsSub (.num 1)
            (jsMul (jsDiv (.num weeksUntilStart) (.num timeHorizonWeeks)) (.num (3/10)))
        else .num (2/10)
  jsMax (.num 0) (jsMin (.num 1) (jsMul (.num (severityFactor * phaseFactor)) timelineFactor))

/-- Embeds `estimateDurationDays` (risk-scoring.js lines 235-254); the explicit
estimate is `none` when absent or zero (JS falsiness). -/
def estimateDurationDays (event_type : String) (expected_duration_days : Option ℚ) : ℚ :=
  match expected_duration_days with
  | some d => if d = 0 then estimateDefaultDuration event_type else d
  | none => estimateDefaultDuration event_type
where
  estimateDefaultDuration (event_type : String) : ℚ :=
    if event_type = "strike" then 21
    else if event_type = "bankruptcy" then 180
    else if event_type = "environmental_shutdown" then 60
    else if event_type = "regulatory_action" then 45
    else if event_type = "infrastructure_outage" then 7
    else if event_type = "labor_protest" then 3
    else 14

structure Timeline where
  earliest_impact_weeks : ℚ
  typical_impact_weeks : ℚ
  impact_days : ℤ
deriving DecidableEq, Repr

/-- Embeds `estimateImpactTimeline` (risk-scoring.js lines 260-290). -/
def estimateImpactTimeline (facility_type : String) (lead_time_weeks : ℚ) : Timeline :=
  let facilityDelay : ℚ :=
    if facility_type = "mine" then 4
    else if facility_type = "smelter" then 2
    else if facility_type = "refinery" then 2
    else if facility_type = "manufacturing" then 1
    else if facility_type = "assembly" then 1/2
    else 3
  let totalImpactWeeks := facilityDelay + lead_time_weeks
  { earliest_impact_weeks := facilityDelay
  , typical_impact_weeks := totalImpactWeeks
  , impact_days := ⌊totalImpactWeeks * 7⌋ }

/-! ### exposure service : string helpers -/

/-- Whether the character list `s` starts with `p`. -/
def startsWithChars : List Char → List Char → Bool
  | [], _ => true
  | _ :: _, [] => false
  | p :: ps, c :: cs => p == c && startsWithChars ps cs

/-- Whether `p` occurs contiguously inside `s`. -/
def containsChars (p : List Char) (s : List Char) : Bool :=
  match s with
  | [] => p.isEmpty
  | _ :: t => startsWithChars p s || containsChars p t

/-- JS `String.prototype.includes`. -/
def strIncludes (s pat : String) : Bool :=
  containsChars pat.toList s.toList

/-- Decimal digits of the fractional part `q` (with `0 ≤ q < 1`), up to the
given fuel; JS renders the terminating expansions arising here exactly. -/
def fracDigits : ℚ → ℕ → String
  | _, 0 => ""
  | q, fuel + 1 =>
      if q = 0 then ""
      else
        let q10 := q * 10
        let d := (⌊q10⌋).toNat
        Nat.repr d ++ fracDigits (q10 - (d : ℚ)) fuel

/-- Decimal rendering of a non-negative rational. -/
def decimalReprNonneg (q : ℚ) : String :=
  let ip := (⌊q⌋).toNat
  let fp := q - (ip : ℚ)
  if fp = 0 then Nat.repr ip else Nat.repr ip ++ "." ++ fracDigits fp 20

/-- JS default number-to-string conversion used in template literals, for the
terminating decimals produced by this code. -/
def decimalRepr (q : ℚ) : String :=
  if q < 0 then "-" ++ decimalReprNonneg (-q) else decimalReprNonneg q

/-! ### exposure service : mitigation recommendations -/

structure Recommendation where
  action : String
  detail : String
  priority : String
  timeline : String
deriving DecidableEq, Repr

/-- Embeds `generateMitigationRecommendations` (exposure service lines 298-341). -/
def generateMitigationRecommendations (exposureData : ExposureData)
    (riskData : RiskData) (timeline : Timeline) : List Recommendation :=
  let bufferWeeks : ℤ := ⌈exposureData.dependency_percentage / 20⌉
  let bufferRec : Recommendation :=
    { action := "Increase inventory buffer"
    , detail := toString bufferWeeks ++ "-" ++ toString (bufferWeeks + 2) ++
        " weeks of " ++ exposureData.commodity ++ " inventory"
    , priority := if 4 ≤ riskData.severity then "URGENT" else "HIGH"
    , timeline := "Immediately" }
  let altRecs : List Recommendation :=
    if exposureData.alternative_sources < 2 then
      [{ action := "Activate alternative suppliers"
       , detail := "Source from $" ++
           (if exposureData.alternative_sources = 0 then "new" else "existing alternative")
           ++ " suppliers to reduce concentration risk"
       , priority := "HIGH"
       , timeline := decimalRepr timeline.earliest_impact_weeks ++ " weeks" }]
    else []
  let hedgeRecs : List Recommendation :=
    if strIncludes exposureData.commodity "raw_material" then
      [{ action := "Financial hedging"
       , detail := "Consider futures contracts or price locks on critical commodities"
       , priority := "MEDIUM"
       , timeline := "1-2 weeks" }]
    else []
  let partnerRec : Recommendation :=
    { action := "Strengthen supplier relationships"
    , detail := "Contact Tier-1 suppliers to discuss contingency plans and backup sourcing"
    , priority := "MEDIUM"
    , timeline := "Within 1 week" }
  bufferRec :: (altRecs ++ hedgeRecs ++ [partnerRec])

/-! ### exposure service : calculateOEMExposure and getAffectedOEMs -/

/-- A supply-chain connection record; optional fields are `none` when absent
(JS `undefined`). -/
structure SupplyChainConnection where
  supplier_tier : ℕ := 0
  dependency_pct : Option ℚ := none
  commodity : Option String := none
  alternative_available : Bool := false
deriving DecidableEq, Repr

/-- The result record of `calculateOEMExposure`. -/
structure OEMExposure where
  oem_id : String
  oem_name : String
  risk_id : String
  risk_title : String
  exposed : Bool
  exposure_score : ℚ
  affected_tier1_suppliers : ℕ
  commodity : String
  dependency_percentage : ℚ
  alternative_sources : ℕ
  disruption_probability_6w : JsVal
  estimated_disruption_days : ℤ
  risk_level : String
  supply_gap_estimate : ℚ
  recommendations : List Recommendation
deriving DecidableEq, Repr

/-- Embeds `supplyChainConnections[0]?.commodity || 'unknown'` (empty string is
falsy in JS). -/
def headCommodity (conns : List SupplyChainConnection) : String :=
  match conns.head? with
  | some c =>
      match c.commodity with
      | some s => if s = "" then "unknown" else s
      | none => "unknown"
  | none => "unknown"

/-- Embeds `calculateOEMExposure` (exposure service lines 130-186), without the
try/catch wrapper: the body is total, so the catch branch is unreachable. -/
def calculateOEMExposure (oemData : OEMData) (riskData : RiskData)
    (conns : List SupplyChainConnection) : OEMExposure :=
  let affectedTier1Suppliers := (conns.filter (fun c => c.supplier_tier == 1)).length
  let dependency_percentage :=
    (conns.foldl (fun s c => s + c.dependency_pct.getD 0) 0) / max (conns.length : ℚ) 1
  let alternative_sources := (conns.filter (fun c => c.alternative_available)).length
  let exposureData : ExposureData :=
    { commodity := headCommodity conns
    , dependency_percentage := dependency_percentage
    , affected_tier1_suppliers := affectedTier1Suppliers
    , alternative_sources := alternative_sources }
  let exposureScore := calculateExposureScore oemData riskData exposureData
  let disruptionProbability := calculateDisruptionProbability riskData 6
  let timeline := estimateImpactTimeline "mine" 4
  { oem_id := oemData.oem_id
  , oem_name := oemData.name
  , risk_id := riskData.id
  , risk_title := riskData.title
  , exposed := decide (1/10 < exposureScore)
  , exposure_score := exposureScore
  , affected_tier1_suppliers := affectedTier1Suppliers
  , commodity := exposureData.commodity
  , dependency_percentage := dependency_percentage
  , alternative_sources := alternative_sources
  , disruption_probability_6w := disruptionProbability
  , estimated_disruption_days := timeline.impact_days
  , risk_level :=
      if 6/10 < exposureScore then "HIGH"
      else if 3/10 < exposureScore then "MEDIUM" else "LOW"
  , supply_gap_estimate :=
      dependency_percentage * (1 - min 1 ((alternative_sources : ℚ) / 3))
  , recommendations := generateMitigationRecommendations exposureData riskData timeline }

structure OEMConnection where
  oem_id : String := ""
  oem_name : String := ""
  supply_chain_path : List SupplyChainConnection := []
deriving DecidableEq, Repr

structure SupplyChainData where
  oem_connections : List OEMConnection := []
deriving DecidableEq, Repr

/-- Embeds `getAffectedOEMs` (exposure service lines 192-215): keep the exposed OEMs
and sort by exposure score, highest first.  The JS comparator
`(a, b) => b.exposure_score - a.exposure_score` is a stable descending sort by
score, modelled with `mergeSort`. -/
def getAffectedOEMs (riskData : RiskData) (s : SupplyChainData) : List OEMExposure :=
  let affectedOEMs :=
    (s.oem_connections.map (fun oc =>
      calculateOEMExposure { oem_id := oc.oem_id, name := oc.oem_name }
        riskData oc.supply_chain_path)).filter (fun e => e.exposed)
  affectedOEMs.mergeSort (fun a b => decide (b.exposure_score ≤ a.exposure_score))

/-! ### exposure service : calculateCommodityExposure -/

structure ActiveRisk where
  severity : ℚ := 0
deriving DecidableEq, Repr

/-- The per-commodity supply record, with the JS destructuring defaults. -/
structure SupplyInfo where
  dependency_pct : ℚ := 5
  source_regions : List String := []
  active_risks : List ActiveRisk := []
  tier2_supplier_count : ℕ := 0
  alternative_supplier_count : ℕ := 0
deriving DecidableEq, Repr

structure CommodityExposure where
  dependency_percentage : ℚ
  primary_source_regions : List String
  regional_concentration_risk : String
  tier2_supplier_count : ℕ
  alternative_supplier_count : ℕ
  active_risks : ℚ
  exposure_score : ℚ
  lead_time_weeks : ℤ
  recommended_buffer_weeks : ℤ
deriving DecidableEq, Repr, Inhabited

/-- Embeds `calculateConcentrationRisk` (exposure service lines 268-273). -/
def calculateConcentrationRisk (regions : List String) : String :=
  if regions.length = 0 then "UNKNOWN"
  else if regions.length = 1 then "HIGH"
  else if regions.length = 2 then "MEDIUM"
  else "LOW"

/-- Embeds `regionLeadTimes[region.toLowerCase()] || 4`. -/
def regionLeadTime (region : String) : ℚ :=
  let r := region.toLower
  if r = "peru" then 4
  else if r = "mexico" then 2
  else if r = "vietnam" then 3
  else if r = "china" then 4
  else if r = "india" then 5
  else if r = "other" then 6
  else 4

/-- Embeds `calculateLeadTime` (exposure service lines 278-293). -/
def calculateLeadTime (regions : List String) : ℤ :=
  ⌈(regions.foldl (fun s r => s + regionLeadTime r) 0) / max (regions.length : ℚ) 1⌉

/-- Embeds `calculateCommodityExposure` (exposure service lines 221-262); the JS
object of commodities is modelled as an association list.  Note the exposure
score is only capped above (`Math.min(1, ...)`). -/
def calculateCommodityExposure (oemId : String)
    (commoditySupplyData : List (String × SupplyInfo)) :
    List (String × CommodityExposure) :=
  let _ := oemId
  commoditySupplyData.map (fun p =>
    let si := p.2
    let concentrationRisk := calculateConcentrationRisk si.source_regions
    let affectedRisk := si.active_risks.foldl (fun m r => max m r.severity) 0
    let commodityExposureScore :=
      (si.dependency_pct / 100) * (affectedRisk / 5) *
        (1 - (si.alternative_supplier_count : ℚ) * (1/4))
    (p.1,
      { dependency_percentage := si.dependency_pct
      , primary_source_regions := si.source_regions
      , regional_concentration_risk := concentrationRisk
      , tier2_supplier_count := si.tier2_supplier_count
      , alternative_supplier_count := si.alternative_supplier_count
      , active_risks := affectedRisk
      , exposure_score := min 1 commodityExposureScore
      , lead_time_weeks := calculateLeadTime si.source_regions
      , recommended_buffer_weeks := ⌈(si.dependency_pct / 20 : ℚ)⌉ }))

/-! ### exposure service : forecastDisruption -/

structure ForecastEntry where
  week : ℕ
  probability : String
  expected_disruption : String
  risk_level : String
deriving DecidableEq, Repr, Inhabited

structure ForecastResult where
  time_horizon_weeks : ℕ
  forecast : List ForecastEntry
  peak_risk_week : Option ForecastEntry
deriving DecidableEq, Repr

/-- One iteration of the `forecastDisruption` loop (exposure service lines
384-396).  `probability` and `expected_disruption` are the `toFixed(3)`
string renderings produced by the source. -/
def mkForecastEntry (r : RiskData) (supplyChainExposure : ℚ)
    (timeHorizonWeeks week : ℕ) : ForecastEntry :=
  let timeDecay : ℚ := (19/20) ^ week
  let probability := calculateDisruptionProbability r ((timeHorizonWeeks : ℚ) - (week : ℚ))
  let expectedDisruption :=
    jsMul (jsMul probability (.num supplyChainExposure)) (.num timeDecay)
  { week := week
  , probability := jsToFixed3 probability
  , expected_disruption := jsToFixed3 expectedDisruption
  , risk_level :=
      if jsLt (.num (6/10)) expectedDisruption then "HIGH"
      else if jsLt (.num (3/10)) expectedDisruption then "MEDIUM" else "LOW" }

/-- The peak selection
`forecast.reduce((max, f) => (f.probability > max.probability ? f : max))`:
a left-to-right scan comparing the rendered probability *strings* with the JS
lexicographic string order (`reduce` without an initial value starts from the
first element and throws on an empty array, modelled as `none`). -/
def peakOf (forecast : List ForecastEntry) : Option ForecastEntry :=
  match forecast with
  | [] => none
  | h :: t =>
      some (t.foldl (fun m f => if m.probability < f.probability then f else m) h)

/-- Embeds `forecastDisruption` (exposure service lines 380-411). -/
def forecastDisruption (r : RiskData) (supplyChainExposure : ℚ)
    (timeHorizonWeeks : ℕ) : ForecastResult :=
  let forecast :=
    (List.range (timeHorizonWeeks + 1)).map
      (mkForecastEntry r supplyChainExposure timeHorizonWeeks)
  { time_horizon_weeks := timeHorizonWeeks
  , forecast := forecast
  , peak_risk_week := peakOf forecast }

/-! ### further definitions used by the statements -/

/-- JS `<=` on numbers (false whenever NaN is involved). -/
def jsLe : JsVal → JsVal → Bool
  | .num a, .num b => decide (a ≤ b)
  | .num _, .posInf => true
  | .negInf, .num _ => true
  | .negInf, .posInf => true
  | .posInf, .posInf => true
  | .negInf, .negInf => true
  | _, _ => false

/-- The product `severityFactor * phaseFactor` computed by
`calculateDisruptionProbability`. -/
def sfpf (r : RiskData) : ℚ :=
  (r.severity / 5) * r.confidence * (if r.status = "escalating" then 6/5 else 1)

/-- Data-model invariants of a Risk record (spec section 3: severity is an
integer in [1,5]; confidence is a positive confidence value, at most 1 —
risks are created from events whose classification confidence exceeds the
configured minimum threshold). -/
def ValidRisk (r : RiskData) : Prop :=
  1 ≤ r.severity ∧ r.severity ≤ 5 ∧ 0 < r.confidence ∧ r.confidence ≤ 1

/-- A concrete risk whose raw disruption probability at remaining horizon 1
is 0.9997 (rendered "1.000") while at remaining horizon 0 it is exactly 1. -/
def c10risk : RiskData :=
  { severity := 5, confidence := 769/1000, days_until_start := some (-7) }

/-- Concrete commodity-supply input used to witness the amended C1 claim. -/
def c1data : List (String × SupplyInfo) :=
  [("copper",
    { dependency_pct := 50
    , active_risks := [{ severity := 5 }]
    , alternative_supplier_count := 2 })]

/-! ### basic lemmas about the clamp -/

lemma clamp01_nonneg (x : ℚ) : 0 ≤ clamp01 x := le_max_left 0 _

lemma clamp01_le_one (x : ℚ) : clamp01 x ≤ 1 :=
  max_le zero_le_one (min_le_left 1 x)

lemma clamp01_mono {x y : ℚ} (h : x ≤ y) : clamp01 x ≤ clamp01 y :=
  max_le_max le_rfl (min_le_min le_rfl h)

lemma clamp01_of_nonpos {x : ℚ} (h : x ≤ 0) : clamp01 x = 0 := by
  unfold clamp01
  rw [min_eq_right (h.trans zero_le_one), max_eq_left h]

lemma clamp01_mul_le {a b : ℚ} (h0 : 0 ≤ a) (hab : a ≤ b) (c : ℚ) :
    clamp01 (a * c) ≤ clamp01 (b * c) := by
  rcases le_or_lt 0 c with hc | hc
  · exact clamp01_mono (mul_le_mul_of_nonneg_right hab hc)
  · rw [clamp01_of_nonpos (mul_nonpos_of_nonneg_of_nonpos h0 hc.le),
      clamp01_of_nonpos (mul_nonpos_of_nonneg_of_nonpos (h0.trans hab) hc.le)]

/-! ### C2 -/

/-- C2: `calculateExposureScore` always returns a value in [0,1]; it applies
`max(0.1, 1 - alternatives * 0.2)` exactly when alternative sources exist and
a `* 1.5` single-source penalty exactly when one Tier-1 supplier is affected;
and on the extreme input (dependencyPct = 1000, severity = 5, no
alternatives, a single affected Tier-1 supplier) it returns exactly 1. -/
theorem exposure_score_clamped_C2 :
    (∀ (oem : OEMData) (risk : RiskData) (d : ExposureData),
      0 ≤ calculateExposureScore oem risk d ∧ calculateExposureScore oem risk d ≤ 1) ∧
    (∀ (oem : OEMData) (risk : RiskData) (d : ExposureData),
      calculateExposureScore oem risk d =
        clamp01 ((d.dependency_percentage / 100) * (risk.severity / 5) *
          (if 0 < d.alternative_sources then
            max (1/10) (1 - (d.alternative_sources : ℚ) * (2/10)) else 1) *
          (if d.affected_tier1_suppliers = 1 then 3/2 else 1))) ∧
    calculateExposureScore {} { severity := 5 }
      { dependency_percentage := 1000, affected_tier1_suppliers := 1,
        alternative_sources := 0 } = 1 := by
  refine ⟨fun oem risk d => ⟨clamp01_nonneg _, clamp01_le_one _⟩, ?_, ?_⟩
  · intro oem risk d
    unfold calculateExposureScore
    dsimp only
    split <;> split <;> congr 1 <;> ring
  · unfold calculateExposureScore clamp01
    norm_num [min_def, max_def]

/-! ### C1 -/

/-- C1 fails on the code: `calculateCommodityExposure` only caps the
per-commodity exposure score above (`Math.min(1, ...)`), so with 5
alternative suppliers (dependency 50%, one active risk of severity 5) the
returned `exposure_score` is -1/8, which is negative. -/
theorem commodity_exposure_C1_cex :
    ((calculateCommodityExposure "oem-1"
        [("copper",
          { dependency_pct := 50
          , active_risks := [{ severity := 5 }]
          , alternative_supplier_count := 5 })]).map
      (fun p => p.2.exposure_score)) = [-(1/8)] ∧ ¬ (0 ≤ (-(1/8) : ℚ)) := by
  constructor
  · unfold calculateCommodityExposure
    norm_num [min_def]
  · norm_num

/-- C1 amended: every per-commodity `exposure_score` produced by
`calculateCommodityExposure` is at most 1; it is additionally non-negative
whenever the commodity's dependency percentage is non-negative and its
alternative-supplier count is at most 4 (the factor
`1 - alternativeSupplierCount * 0.25` becomes negative from 5 suppliers on,
and the code has no lower clamp). -/
theorem commodity_exposure_amended_C1 :
    ∀ (oemId : String) (data : List (String × SupplyInfo)),
      ∀ p ∈ calculateCommodityExposure oemId data,
        p.2.exposure_score ≤ 1 ∧
        (0 ≤ p.2.dependency_percentage → p.2.alternative_supplier_count ≤ 4 →
          0 ≤ p.2.exposure_score) := by
  intro oemId data p hp
  unfold calculateCommodityExposure at hp
  obtain ⟨x, hx, rfl⟩ := List.mem_map.mp hp
  dsimp only
  refine ⟨min_le_left _ _, fun hdep halt => ?_⟩
  have hrisk : (0 : ℚ) ≤ x.2.active_risks.foldl (fun m r => max m r.severity) 0 := by
    have : ∀ (l : List ActiveRisk) (a : ℚ),
        a ≤ l.foldl (fun m r => max m r.severity) a := by
      intro l
      induction l with
      | nil => intro a; exact le_rfl
      | cons r t ih => intro a; exact (le_max_left a r.severity).trans (ih _)
    exact this _ 0
  refine le_min zero_le_one ?_
  have h1 : (0 : ℚ) ≤ x.2.dependency_pct / 100 * (x.2.active_risks.foldl
      (fun m r => max m r.severity) 0 / 5) := by positivity
  have h2 : (0 : ℚ) ≤ 1 - (x.2.alternative_supplier_count : ℚ) * (1/4) := by
    have : (x.2.alternative_supplier_count : ℚ) ≤ 4 := by exact_mod_cast halt
    linarith
  calc (0 : ℚ) ≤ _ * _ := mul_nonneg h1 h2
    _ = _ := by ring

/-- Closed instance of the amended C1 claim: with 2 alternative suppliers the
exposure score of the single produced entry is within [0,1]. -/
theorem commodity_exposure_amended_C1_witness :
    0 ≤ ((calculateCommodityExposure "oem-1" c1data).headI).2.exposure_score ∧
    ((calculateCommodityExposure "oem-1" c1data).headI).2.exposure_score ≤ 1 := by
  have h := commodity_exposure_amended_C1 "oem-1" c1data
    ((calculateCommodityExposure "oem-1" c1data).headI)
    (by simp [calculateCommodityExposure, c1data])
  refine ⟨h.2 ?_ ?_, h.1⟩
  · norm_num [calculateCommodityExposure, c1data]
  · simp [calculateCommodityExposure, c1data]

/-! ### C3 -/

/-- C3 fails on the code: `calculateCommodityRisk` computes
`Math.min(2.0, base / 3.0)` — the cap is applied after the division, not
before — so for substitution difficulty "high" the factor is 1, while the
claim's formula (cap the base at 2, then divide by 3) gives 2/3, and 1 lies
outside the claimed interval [0.33, 0.67]. -/
theorem commodity_risk_C3_cex :
    calculateCommodityRisk { substitution_difficulty := "high" } = 1 ∧
    min 2 (substitutionDifficultyMultiplier "high") / 3 = 2/3 ∧
    ¬ ((1 : ℚ) ≤ 67/100) := by
  refine ⟨?_, ?_, by norm_num⟩
  · norm_num [calculateCommodityRisk, substitutionDifficultyMultiplier, min_def]
  · norm_num [substitutionDifficultyMultiplier, min_def]

/-- C3 amended: the commodity-criticality factor is
`min(2.0, base / 3.0) = base / 3` (the cap never binds), so it lies in
[1/3, 1] — 1/3 for low/unknown difficulty, 2/3 for medium, 1 for high — and
`calculateRiskScore` multiplies exactly this factor into the clamped product
of the remaining factors. -/
theorem commodity_risk_amended_C3 :
    ∀ (c : CommodityData),
      calculateCommodityRisk c =
        substitutionDifficultyMultiplier c.substitution_difficulty / 3 ∧
      1/3 ≤ calculateCommodityRisk c ∧ calculateCommodityRisk c ≤ 1 ∧
      ∀ (e : EventScoreData) (f : FacilityData) (reg : RegionData) (td : ℚ),
        calculateRiskScore e f reg c td =
          clamp01 (riskScorePreCommodity e f reg td * calculateCommodityRisk c) := by
  intro c
  have hm : 1 ≤ substitutionDifficultyMultiplier c.substitution_difficulty ∧
      substitutionDifficultyMultiplier c.substitution_difficulty ≤ 3 := by
    unfold substitutionDifficultyMultiplier
    split
    · norm_num
    · split
      · norm_num
      · split <;> norm_num
  have heq : calculateCommodityRisk c =
      substitutionDifficultyMultiplier c.substitution_difficulty / 3 := by
    unfold calculateCommodityRisk
    exact min_eq_right (by linarith [hm.2])
  refine ⟨heq, by rw [heq]; linarith [hm.1], by rw [heq]; linarith [hm.2], ?_⟩
  intro e f reg td
  unfold calculateRiskScore riskScorePreCommodity
  dsimp only
  congr 1
  ring

/-! ### characterization of calculateDisruptionProbability -/

lemma calcDP_none (r : RiskData) (T : ℚ) (h : r.days_until_start = none) :
    calculateDisruptionProbability r T = .num (clamp01 (sfpf r * (1/2))) := by
  unfold calculateDisruptionProbability sfpf
  rw [h]
  simp [jsMul, jsMin, jsMax, clamp01]

lemma calcDP_far (r : RiskData) (T : ℚ) (d : ℤ) (h : r.days_until_start = some d)
    (hT : ¬ ((d : ℚ)/7 < T)) :
    calculateDisruptionProbability r T = .num (clamp01 (sfpf r * (2/10))) := by
  unfold calculateDisruptionProbability sfpf
  rw [h]
  simp [hT, jsMul, jsMin, jsMax, clamp01]

lemma calcDP_near (r : RiskData) (T : ℚ) (d : ℤ) (h : r.days_until_start = some d)
    (hlt : (d : ℚ)/7 < T) (hT : T ≠ 0) :
    calculateDisruptionProbability r T =
      .num (clamp01 (sfpf r * (1 - (d : ℚ)/7 / T * (3/10)))) := by
  unfold calculateDisruptionProbability sfpf
  rw [h]
  simp [hlt, hT, jsDiv, jsMul, jsSub, jsMin, jsMax, clamp01]

lemma calcDP_zero (r : RiskData) (d : ℤ) (h : r.days_until_start = some d)
    (hd : (d : ℚ)/7 < 0) :
    calculateDisruptionProbability r 0 =
      if 0 < sfpf r then .num 1 else if sfpf r < 0 then .num 0 else .nan := by
  have hdiv : jsDiv (.num ((d : ℚ)/7)) (.num 0) = .negInf := by
    simp [jsDiv, not_lt.mpr hd.le, hd]
  unfold calculateDisruptionProbability
  rw [h]
  dsimp only
  rw [if_pos hd, hdiv]
  rw [show jsMul JsVal.negInf (.num (3/10)) = JsVal.negInf from by norm_num [jsMul]]
  rw [show jsSub (.num 1) JsVal.negInf = JsVal.posInf from rfl]
  rw [show (r.severity / 5 * r.confidence) *
      (if r.status = "escalating" then (6 : ℚ)/5 else 1) = sfpf r from rfl]
  rcases lt_trichotomy 0 (sfpf r) with hc | hc | hc
  · rw [if_pos hc]
    rw [show jsMul (.num (sfpf r)) JsVal.posInf = JsVal.posInf from by simp [jsMul, hc]]
    simp [jsMin, jsMax, max_eq_right (zero_le_one' ℚ)]
  · rw [if_neg (by rw [← hc]; exact lt_irrefl 0), if_neg (by rw [← hc]; exact lt_irrefl 0)]
    rw [show jsMul (.num (sfpf r)) JsVal.posInf = JsVal.nan from by
      simp [jsMul, ← hc]]
    simp [jsMin, jsMax]
  · rw [if_neg (asymm hc), if_pos hc]
    rw [show jsMul (.num (sfpf r)) JsVal.posInf = JsVal.negInf from by
      simp [jsMul, asymm hc, hc]]
    simp [jsMin, jsMax]

lemma sfpf_pos_of (r : RiskData) (h1 : 0 < r.severity) (h2 : 0 < r.confidence) :
    0 < sfpf r := by
  have hb : 0 < (r.severity / 5) * r.confidence := mul_pos (by positivity) h2
  unfold sfpf
  split
  · exact mul_pos hb (by norm_num)
  · exact mul_pos hb one_pos

lemma calcDP_num_of_pos (r : RiskData) (T : ℚ) (h : 0 < sfpf r) :
    ∃ q : ℚ, calculateDisruptionProbability r T = .num q ∧ 0 ≤ q ∧ q ≤ 1 := by
  cases hd : r.days_until_start with
  | none =>
      exact ⟨_, calcDP_none r T hd, clamp01_nonneg _, clamp01_le_one _⟩
  | some d =>
      by_cases hlt : (d : ℚ)/7 < T
      · by_cases hT : T = 0
        · subst hT
          refine ⟨1, ?_, zero_le_one, le_rfl⟩
          rw [calcDP_zero r d hd hlt, if_pos h]
        · exact ⟨_, calcDP_near r T d hd hlt hT, clamp01_nonneg _, clamp01_le_one _⟩
      · exact ⟨_, calcDP_far r T d hd hlt, clamp01_nonneg _, clamp01_le_one _⟩

lemma mkForecastEntry_week (r : RiskData) (e : ℚ) (H w : ℕ) :
    (mkForecastEntry r e H w).week = w := rfl

lemma mkForecastEntry_prob (r : RiskData) (e : ℚ) (H w : ℕ) :
    (mkForecastEntry r e H w).probability =
      jsToFixed3 (calculateDisruptionProbability r ((H : ℚ) - (w : ℚ))) := rfl

/-! ### C4 -/

/-- C4: for every risk record (satisfying the Risk data-model invariants) and
every baseline exposure value, `forecastDisruption` over a 6-week horizon
produces exactly 7 entries, for weeks 0..6 in order, and each entry's
probability renders an underlying disruption-probability value lying in
[0,1]. -/
theorem forecast_bounds_C4 (r : RiskData) (e : ℚ) (h : ValidRisk r) :
    (forecastDisruption r e 6).forecast.length = 7 ∧
    (forecastDisruption r e 6).forecast.map (fun f => f.week) = List.range 7 ∧
    ∀ f ∈ (forecastDisruption r e 6).forecast, ∃ q : ℚ, 0 ≤ q ∧ q ≤ 1 ∧
      calculateDisruptionProbability r (6 - (f.week : ℚ)) = JsVal.num q ∧
      f.probability = jsToFixed3 (JsVal.num q) := by
  obtain ⟨h1, h2, h3, h4⟩ := h
  have hpos : 0 < sfpf r := sfpf_pos_of r (by linarith) h3
  refine ⟨by simp [forecastDisruption], ?_, ?_⟩
  · simp [forecastDisruption, List.map_map, Function.comp_def, mkForecastEntry_week]
  · intro f hf
    simp only [forecastDisruption, List.mem_map] at hf
    obtain ⟨w, hw, rfl⟩ := hf
    obtain ⟨q, hq, hq0, hq1⟩ := calcDP_num_of_pos r ((6 : ℚ) - (w : ℚ)) hpos
    refine ⟨q, hq0, hq1, ?_, ?_⟩
    · rw [mkForecastEntry_week]
      exact hq
    · rw [mkForecastEntry_prob]
      have hq' : calculateDisruptionProbability r (((6 : ℕ) : ℚ) - (w : ℚ)) =
          JsVal.num q := by
        simp only [Nat.cast_ofNat]
        exact hq
      rw [hq']

/-- Closed instance of C4: a valid concrete risk gives a 7-entry forecast. -/
theorem forecast_bounds_C4_witness :
    (forecastDisruption { severity := 4, confidence := 9/10 } (1/2) 6).forecast.length
      = 7 :=
  (forecast_bounds_C4 { severity := 4, confidence := 9/10 } (1/2)
    ⟨by norm_num, by norm_num, by norm_num, by norm_num⟩).1

/-! ### C7 -/

/-- C7: with status, start date and time horizon fixed,
`calculateDisruptionProbability` is monotonically non-decreasing in severity
and in confidence: raising either (or both) never decreases the returned
probability. -/
theorem disruption_monotone_C7 :
    ∀ (r : RiskData) (sev sev' conf conf' T : ℚ),
      0 < sev → sev ≤ sev' → 0 < conf → conf ≤ conf' →
      ∃ q q' : ℚ,
        calculateDisruptionProbability
          { r with severity := sev, confidence := conf } T = .num q ∧
        calculateDisruptionProbability
          { r with severity := sev', confidence := conf' } T = .num q' ∧
        q ≤ q' := by
  intro r sev sev' conf conf' T hs0 hss hc0 hcc
  set r1 : RiskData := { r with severity := sev, confidence := conf } with hr1
  set r2 : RiskData := { r with severity := sev', confidence := conf' } with hr2
  have hp1 : 0 < sfpf r1 := sfpf_pos_of r1 hs0 hc0
  have hmono : sfpf r1 ≤ sfpf r2 := by
    unfold sfpf
    rw [hr1, hr2]
    dsimp only
    have hphase : (0 : ℚ) < (if r.status = "escalating" then 6/5 else 1) := by
      split <;> norm_num
    exact mul_le_mul_of_nonneg_right
      (mul_le_mul (by linarith) hcc hc0.le (by linarith)) hphase.le
  have hp2 : 0 < sfpf r2 := lt_of_lt_of_le hp1 hmono
  have hdays : r1.days_until_start = r.days_until_start ∧
      r2.days_until_start = r.days_until_start := ⟨rfl, rfl⟩
  cases hd : r.days_until_start with
  | none =>
      exact ⟨_, _, calcDP_none r1 T (hdays.1.trans hd),
        calcDP_none r2 T (hdays.2.trans hd), clamp01_mul_le hp1.le hmono _⟩
  | some d =>
      by_cases hlt : (d : ℚ)/7 < T
      · by_cases hT : T = 0
        · subst hT
          refine ⟨1, 1, ?_, ?_, le_rfl⟩
          · rw [calcDP_zero r1 d (hdays.1.trans hd) hlt, if_pos hp1]
          · rw [calcDP_zero r2 d (hdays.2.trans hd) hlt, if_pos hp2]
        · exact ⟨_, _, calcDP_near r1 T d (hdays.1.trans hd) hlt hT,
            calcDP_near r2 T d (hdays.2.trans hd) hlt hT,
            clamp01_mul_le hp1.le hmono _⟩
      · exact ⟨_, _, calcDP_far r1 T d (hdays.1.trans hd) hlt,
          calcDP_far r2 T d (hdays.2.trans hd) hlt,
          clamp01_mul_le hp1.le hmono _⟩

/-- Closed instance of C7: raising severity 2 to 3 and confidence 0.5 to 0.75
does not decrease the disruption probability (JS `<=` on the two results). -/
theorem disruption_monotone_C7_witness :
    jsLe (calculateDisruptionProbability { severity := 2, confidence := 1/2 } 6)
      (calculateDisruptionProbability { severity := 3, confidence := 3/4 } 6) = true := by
  obtain ⟨q, q', h1, h2, hle⟩ :=
    disruption_monotone_C7 {} 2 3 (1/2) (3/4) 6 (by norm_num) (by norm_num)
      (by norm_num) (by norm_num)
  have h1' : calculateDisruptionProbability { severity := 2, confidence := 1/2 } 6 =
      JsVal.num q := h1
  have h2' : calculateDisruptionProbability { severity := 3, confidence := 3/4 } 6 =
      JsVal.num q' := h2
  rw [h1', h2']
  simp [jsLe, hle]

/-! ### C8 -/

/-- C8: `calculateEventSeverity` returns the event type's range maximum when
the indicators signal major scope, more than 1000 participants, or high
historical impact; otherwise the ceiling of the range midpoint when they
signal moderate scope, more than 500 participants, or medium historical
impact; otherwise the range minimum; the result is always an integer in
[1,5]; and unknown event types use the range (1,3). -/
theorem event_severity_C8 :
    ∀ (e : EventData),
      (majorIndicator e.indicators = true →
        calculateEventSeverity e = (severityScale e.event_type).2) ∧
      (majorIndicator e.indicators = false → moderateIndicator e.indicators = true →
        calculateEventSeverity e =
          ((severityScale e.event_type).1 + (severityScale e.event_type).2 + 1) / 2) ∧
      (majorIndicator e.indicators = false → moderateIndicator e.indicators = false →
        calculateEventSeverity e = (severityScale e.event_type).1) ∧
      1 ≤ calculateEventSeverity e ∧ calculateEventSeverity e ≤ 5 ∧
      (e.event_type ∉ (["strike", "bankruptcy", "environmental_shutdown",
          "regulatory_action", "infrastructure_outage", "labor_protest"] : List String) →
        severityScale e.event_type = (1, 3)) := by
  intro e
  have hb : 1 ≤ (severityScale e.event_type).1 ∧
      (severityScale e.event_type).1 ≤ (severityScale e.event_type).2 ∧
      (severityScale e.event_type).2 ≤ 5 := by
    unfold severityScale
    repeat' split
    all_goals simp
  obtain ⟨hb1, hb2, hb3⟩ := hb
  unfold calculateEventSeverity
  dsimp only
  refine ⟨?_, ?_, ?_, ?_, ?_, ?_⟩
  · intro h
    simp only [h, if_true]
    omega
  · intro h1 h2
    simp only [h1, h2, if_true, if_false, Bool.false_eq_true]
    omega
  · intro h1 h2
    simp only [h1, h2, if_false, Bool.false_eq_true]
    omega
  · exact le_max_left _ _
  · exact max_le (by norm_num) (min_le_left _ _)
  · intro h
    simp only [List.mem_cons, List.not_mem_nil, or_false] at h
    push_neg at h
    obtain ⟨h1, h2, h3, h4, h5, h6⟩ := h
    simp [severityScale, h1, h2, h3, h4, h5, h6]

/-- Closed instance of C8: a major-scope bankruptcy event gets the range
maximum, severity 5. -/
theorem event_severity_C8_witness :
    calculateEventSeverity
      { event_type := "bankruptcy", indicators := { scope := "major" } } = 5 := by
  have h := (event_severity_C8
    { event_type := "bankruptcy", indicators := { scope := "major" } }).1 (by decide)
  rw [h]
  decide

/-! ### C9 -/

/-- C9: whenever the exposure data records fewer than 2 alternative sources,
the generated recommendation list contains an "Activate alternative
suppliers" recommendation with priority HIGH. -/
theorem mitigation_alt_C9 :
    ∀ (d : ExposureData) (r : RiskData) (t : Timeline),
      d.alternative_sources < 2 →
      ∃ rec ∈ generateMitigationRecommendations d r t,
        rec.action = "Activate alternative suppliers" ∧ rec.priority = "HIGH" := by
  intro d r t h
  refine ⟨⟨"Activate alternative suppliers",
    "Source from $" ++
      (if d.alternative_sources = 0 then "new" else "existing alternative") ++
      " suppliers to reduce concentration risk",
    "HIGH", decimalRepr t.earliest_impact_weeks ++ " weeks"⟩, ?_, rfl, rfl⟩
  unfold generateMitigationRecommendations
  dsimp only
  simp [h]

/-- Closed instance of C9: an exposure with 0 alternative sources (and a
single-sourced supply chain) yields the HIGH-priority
"Activate alternative suppliers" recommendation. -/
theorem mitigation_alt_C9_witness :
    ((generateMitigationRecommendations { alternative_sources := 0 } {}
        (estimateImpactTimeline "mine" 4)).any
      (fun rec => rec.action == "Activate alternative suppliers" &&
        rec.priority == "HIGH")) = true := by
  obtain ⟨rec, hmem, h1, h2⟩ :=
    mitigation_alt_C9 { alternative_sources := 0 } {} (estimateImpactTimeline "mine" 4)
      (by decide)
  exact List.any_eq_true.mpr ⟨rec, hmem, by simp [h1, h2]⟩

/-! ### C5 -/

lemma calcOEM_exposed_eq (o : OEMData) (r : RiskData)
    (conns : List SupplyChainConnection) :
    (calculateOEMExposure o r conns).exposed =
      decide (1/10 < (calculateOEMExposure o r conns).exposure_score) := rfl

/-- C5: `getAffectedOEMs` includes an OEM's exposure record exactly when its
computed exposure score is strictly greater than 0.10 (scores of exactly 0.10
are excluded), the returned list is sorted descending by exposure score, and
every returned record arises from one of the supply-chain connections with
score above the threshold. -/
theorem affected_oems_C5 :
    ∀ (r : RiskData) (s : SupplyChainData),
      (∀ oc ∈ s.oem_connections,
        (calculateOEMExposure { oem_id := oc.oem_id, name := oc.oem_name } r
            oc.supply_chain_path ∈ getAffectedOEMs r s ↔
          1/10 < (calculateOEMExposure { oem_id := oc.oem_id, name := oc.oem_name } r
            oc.supply_chain_path).exposure_score)) ∧
      (getAffectedOEMs r s).Pairwise (fun a b => b.exposure_score ≤ a.exposure_score) ∧
      (∀ x ∈ getAffectedOEMs r s, ∃ oc ∈ s.oem_connections,
        x = calculateOEMExposure { oem_id := oc.oem_id, name := oc.oem_name } r
          oc.supply_chain_path ∧ 1/10 < x.exposure_score) := by
  intro r s
  have hmem : ∀ x : OEMExposure, x ∈ getAffectedOEMs r s ↔
      (x ∈ s.oem_connections.map (fun oc =>
          calculateOEMExposure { oem_id := oc.oem_id, name := oc.oem_name } r
            oc.supply_chain_path) ∧ x.exposed = true) := by
    intro x
    unfold getAffectedOEMs
    rw [List.mem_mergeSort]
    exact List.mem_filter
  refine ⟨?_, ?_, ?_⟩
  · intro oc hoc
    rw [hmem]
    constructor
    · rintro ⟨_, hexp⟩
      rw [calcOEM_exposed_eq] at hexp
      exact of_decide_eq_true hexp
    · intro hlt
      refine ⟨List.mem_map_of_mem _ hoc, ?_⟩
      rw [calcOEM_exposed_eq]
      exact decide_eq_true hlt
  · unfold getAffectedOEMs
    have hs := @List.sorted_mergeSort OEMExposure
      (fun a b : OEMExposure => decide (b.exposure_score ≤ a.exposure_score))
      (fun a b c hab hbc =>
        decide_eq_true (le_trans (of_decide_eq_true hbc) (of_decide_eq_true hab)))
      (fun a b => by
        rcases le_total b.exposure_score a.exposure_score with h | h <;> simp [h])
      ((s.oem_connections.map (fun oc =>
        calculateOEMExposure { oem_id := oc.oem_id, name := oc.oem_name } r
          oc.supply_chain_path)).filter (fun e => e.exposed))
    exact hs.imp (fun h => of_decide_eq_true h)
  · intro x hx
    rw [hmem] at hx
    obtain ⟨hin, hexp⟩ := hx
    obtain ⟨oc, hoc, rfl⟩ := List.mem_map.mp hin
    rw [calcOEM_exposed_eq] at hexp
    exact ⟨oc, hoc, rfl, of_decide_eq_true hexp⟩

/-- Concrete supply-chain input for the C5 witness: a single Tier-1
connection with 50% dependency. -/
def c5conn : OEMConnection :=
  { oem_id := "b", oem_name := "B"
  , supply_chain_path := [{ supplier_tier := 1, dependency_pct := some 50 }] }

def c5sc : SupplyChainData := { oem_connections := [c5conn] }

/-- Closed instance of C5: the OEM with exposure score 0.75 > 0.10 appears in
the affected-OEMs list. -/
theorem affected_oems_C5_witness :
    calculateOEMExposure { oem_id := c5conn.oem_id, name := c5conn.oem_name }
      { severity := 5 } c5conn.supply_chain_path ∈
      getAffectedOEMs { severity := 5 } c5sc := by
  refine ((affected_oems_C5 { severity := 5 } c5sc).1 c5conn
    (by simp [c5sc])).mpr ?_
  norm_num [calculateOEMExposure, calculateExposureScore, clamp01, headCommodity,
    c5conn, min_def, max_def]

/-! ### C6 -/

/-- A left fold with `if k m < k f then f else m` returns the first element
attaining the maximum key: the list splits around the result, everything
before it has a strictly smaller key, and nothing has a larger key. -/
lemma foldl_pickMax_spec {α β : Type} [LinearOrder β] (k : α → β) (step : α → α → α)
    (hstep : ∀ m f, step m f = if k m < k f then f else m) :
    ∀ (t : List α) (a : α),
      ∃ l₁ l₂ : List α,
        a :: t = l₁ ++ (t.foldl step a) :: l₂ ∧
        (∀ x ∈ l₁, k x < k (t.foldl step a)) ∧
        (∀ x ∈ a :: t, k x ≤ k (t.foldl step a)) := by
  intro t
  induction t with
  | nil =>
      intro a
      refine ⟨[], [], rfl, by simp, ?_⟩
      intro x hx
      rw [List.mem_singleton] at hx
      exact hx ▸ le_rfl
  | cons f t ih =>
      intro a
      simp only [List.foldl_cons, hstep a f]
      by_cases h : k a < k f
      · rw [if_pos h]
        obtain ⟨l₁, l₂, hsplit, hlt, hle⟩ := ih f
        refine ⟨a :: l₁, l₂, ?_, ?_, ?_⟩
        · rw [List.cons_append, ← hsplit]
        · intro x hx
          rcases List.mem_cons.mp hx with rfl | hx'
          · exact lt_of_lt_of_le h (hle f (List.mem_cons_self f t))
          · exact hlt x hx'
        · intro x hx
          rcases List.mem_cons.mp hx with rfl | hx'
          · exact (lt_of_lt_of_le h (hle f (List.mem_cons_self f t))).le
          · exact hle x hx'
      · rw [if_neg h]
        have hfa : k f ≤ k a := le_of_not_lt h
        obtain ⟨l₁, l₂, hsplit, hlt, hle⟩ := ih a
        cases l₁ with
        | nil =>
            simp only [List.nil_append] at hsplit
            injection hsplit with ha ht
            refine ⟨[], f :: l₂, ?_, by simp, ?_⟩
            · simp only [List.nil_append]
              rw [← ha, ← ht]
            · intro x hx
              rcases List.mem_cons.mp hx with rfl | hx'
              · exact hle x (List.mem_cons_self x t)
              · rcases List.mem_cons.mp hx' with rfl | hx''
                · exact hfa.trans (hle a (List.mem_cons_self a t))
                · exact hle x (List.mem_cons_of_mem a hx'')
        | cons b l₁' =>
            rw [List.cons_append] at hsplit
            injection hsplit with hb ht
            refine ⟨a :: f :: l₁', l₂, ?_, ?_, ?_⟩
            · simp only [List.cons_append]
              conv_lhs => rw [ht]
            · intro x hx
              have hbmem : k a < k (List.foldl step a t) := by
                have hx0 := hlt b (List.mem_cons_self b l₁')
                rw [← hb] at hx0
                exact hx0
              rcases List.mem_cons.mp hx with rfl | hx'
              · exact hbmem
              · rcases List.mem_cons.mp hx' with rfl | hx''
                · exact lt_of_le_of_lt hfa hbmem
                · exact hlt x (List.mem_cons_of_mem b hx'')
            · intro x hx
              rcases List.mem_cons.mp hx with rfl | hx'
              · exact hle x (List.mem_cons_self x t)
              · rcases List.mem_cons.mp hx' with rfl | hx''
                · exact hfa.trans (hle a (List.mem_cons_self a t))
                · exact hle x (List.mem_cons_of_mem a hx'')

/-- C6: for every risk, baseline exposure and horizon, `forecastDisruption`
returns a peak entry; it belongs to the forecast, its probability field is
maximal (in the lexicographic string order the source compares with, which on
these fixed-format 3-decimal renderings coincides with numeric order), and
among entries tying on the probability field the peak has the earliest
week. -/
theorem forecast_peak_C6 :
    ∀ (r : RiskData) (e : ℚ) (H : ℕ),
      ∃ peak, (forecastDisruption r e H).peak_risk_week = some peak ∧
        peak ∈ (forecastDisruption r e H).forecast ∧
        (∀ f ∈ (forecastDisruption r e H).forecast,
          f.probability ≤ peak.probability) ∧
        (∀ f ∈ (forecastDisruption r e H).forecast,
          f.probability = peak.probability → peak.week ≤ f.week) := by
  intro r e H
  have hF : (forecastDisruption r e H).forecast =
      mkForecastEntry r e H 0 ::
        (List.range H).map (fun i => mkForecastEntry r e H (i + 1)) := by
    show (List.range (H + 1)).map (mkForecastEntry r e H) = _
    rw [List.range_succ_eq_map, List.map_cons, List.map_map]
    rfl
  set t := (List.range H).map (fun i => mkForecastEntry r e H (i + 1)) with htdef
  set a := mkForecastEntry r e H 0 with hadef
  obtain ⟨l₁, l₂, hsplit, hlt, hle⟩ :=
    foldl_pickMax_spec (fun f : ForecastEntry => f.probability)
      (fun m f => if m.probability < f.probability then f else m)
      (fun m f => by
        dsimp only
        by_cases h : m.probability < f.probability
        · exact (if_pos h).trans (if_pos h).symm
        · exact (if_neg h).trans (if_neg h).symm) t a
  have hpk : (forecastDisruption r e H).peak_risk_week =
      some (t.foldl (fun m f => if m.probability < f.probability then f else m) a) := by
    show peakOf ((forecastDisruption r e H).forecast) = _
    rw [hF]
    rfl
  have hpw : (a :: t).Pairwise (fun x y => x.week < y.week) := by
    rw [← hF]
    show ((List.range (H + 1)).map (mkForecastEntry r e H)).Pairwise _
    rw [List.pairwise_map]
    simp only [mkForecastEntry_week]
    exact List.pairwise_lt_range _
  rw [hsplit] at hpw
  obtain ⟨-, hpw2, -⟩ := List.pairwise_append.mp hpw
  have hweeks := (List.pairwise_cons.mp hpw2).1
  refine ⟨t.foldl (fun m f => if m.probability < f.probability then f else m) a,
    hpk, ?_, ?_, ?_⟩
  · rw [hF, hsplit]
    exact List.mem_append_right _ (List.mem_cons_self _ _)
  · intro f hf
    rw [hF] at hf
    exact hle f hf
  · intro f hf heq
    rw [hF, hsplit] at hf
    rcases List.mem_append.mp hf with hf1 | hf2
    · have hc := hlt f hf1
      rw [heq] at hc
      exact absurd hc (lt_irrefl _)
    · rcases List.mem_cons.mp hf2 with rfl | hf3
      · exact le_rfl
      · exact (hweeks f hf3).le

/-- Closed instance of C6: the peak entry exists for a concrete forecast. -/
theorem forecast_peak_C6_witness :
    ((forecastDisruption {} 0 3).peak_risk_week).isSome = true := by
  obtain ⟨peak, hpk, -, -, -⟩ := forecast_peak_C6 {} 0 3
  rw [hpk]
  rfl

/-! ### C10 -/

lemma jsMul_num (a b : ℚ) : jsMul (.num a) (.num b) = .num (a * b) := rfl

lemma mkForecastEntry_ed (r : RiskData) (e : ℚ) (H w : ℕ) :
    (mkForecastEntry r e H w).expected_disruption =
      jsToFixed3 (jsMul (jsMul (calculateDisruptionProbability r ((H : ℚ) - (w : ℚ)))
        (.num e)) (.num ((19/20) ^ w))) := rfl

/-- Applying `toFixed(3)` to a value in [0,1] renders a whole number of thousandths. -/
lemma jsToFixed3_quant {q : ℚ} (h0 : 0 ≤ q) (h1 : q ≤ 1) :
    ∃ n : ℕ, n ≤ 1000 ∧ jsToFixed3 (.num q) = fmtThousandths n := by
  refine ⟨(roundHalfUp (1000 * q)).toNat, ?_, ?_⟩
  · have hle : roundHalfUp (1000 * q) ≤ 1000 := by
      unfold roundHalfUp
      calc ⌊1000 * q + 1/2⌋ ≤ ⌊(2001/2 : ℚ)⌋ := Int.floor_le_floor (by linarith)
        _ = 1000 := by norm_num
    exact Int.toNat_le.mpr hle
  · simp only [jsToFixed3]
    rw [if_neg (not_lt.mpr h0)]

lemma c10_sfpf : sfpf c10risk = 769/1000 := by
  have hs : ¬ ((c10risk.status : String) = "escalating") := by decide
  rw [sfpf, if_neg hs]
  norm_num [c10risk]

lemma c10_p6 : calculateDisruptionProbability c10risk 6 = .num (16149/20000) := by
  rw [calcDP_near c10risk 6 (-7) rfl (by norm_num) (by norm_num), c10_sfpf]
  norm_num [clamp01, min_def, max_def]

lemma c10_p5 : calculateDisruptionProbability c10risk 5 = .num (40757/50000) := by
  rw [calcDP_near c10risk 5 (-7) rfl (by norm_num) (by norm_num), c10_sfpf]
  norm_num [clamp01, min_def, max_def]

lemma c10_p4 : calculateDisruptionProbability c10risk 4 = .num (33067/40000) := by
  rw [calcDP_near c10risk 4 (-7) rfl (by norm_num) (by norm_num), c10_sfpf]
  norm_num [clamp01, min_def, max_def]

lemma c10_p3 : calculateDisruptionProbability c10risk 3 = .num (8459/10000) := by
  rw [calcDP_near c10risk 3 (-7) rfl (by norm_num) (by norm_num), c10_sfpf]
  norm_num [clamp01, min_def, max_def]

lemma c10_p2 : calculateDisruptionProbability c10risk 2 = .num (17687/20000) := by
  rw [calcDP_near c10risk 2 (-7) rfl (by norm_num) (by norm_num), c10_sfpf]
  norm_num [clamp01, min_def, max_def]

lemma c10_p1 : calculateDisruptionProbability c10risk 1 = .num (9997/10000) := by
  rw [calcDP_near c10risk 1 (-7) rfl (by norm_num) (by norm_num), c10_sfpf]
  norm_num [clamp01, min_def, max_def]

lemma c10_p0 : calculateDisruptionProbability c10risk 0 = .num 1 := by
  rw [calcDP_zero c10risk (-7) rfl (by norm_num)]
  rw [if_pos (by rw [c10_sfpf]; norm_num)]

lemma c10_fix6 : jsToFixed3 (.num (16149/20000 : ℚ)) = "0.807" := by
  have hr : roundHalfUp (1000 * (16149/20000 : ℚ)) = 807 := by
    unfold roundHalfUp
    norm_num
  simp only [jsToFixed3]
  rw [if_neg (by norm_num), hr]
  decide

lemma c10_fix5 : jsToFixed3 (.num (40757/50000 : ℚ)) = "0.815" := by
  have hr : roundHalfUp (1000 * (40757/50000 : ℚ)) = 815 := by
    unfold roundHalfUp
    norm_num
  simp only [jsToFixed3]
  rw [if_neg (by norm_num), hr]
  decide

lemma c10_fix4 : jsToFixed3 (.num (33067/40000 : ℚ)) = "0.827" := by
  have hr : roundHalfUp (1000 * (33067/40000 : ℚ)) = 827 := by
    unfold roundHalfUp
    norm_num
  simp only [jsToFixed3]
  rw [if_neg (by norm_num), hr]
  decide

lemma c10_fix3 : jsToFixed3 (.num (8459/10000 : ℚ)) = "0.846" := by
  have hr : roundHalfUp (1000 * (8459/10000 : ℚ)) = 846 := by
    unfold roundHalfUp
    norm_num
  simp only [jsToFixed3]
  rw [if_neg (by norm_num), hr]
  decide

lemma c10_fix2 : jsToFixed3 (.num (17687/20000 : ℚ)) = "0.884" := by
  have hr : roundHalfUp (1000 * (17687/20000 : ℚ)) = 884 := by
    unfold roundHalfUp
    norm_num
  simp only [jsToFixed3]
  rw [if_neg (by norm_num), hr]
  decide

lemma c10_fix1 : jsToFixed3 (.num (9997/10000 : ℚ)) = "1.000" := by
  have hr : roundHalfUp (1000 * (9997/10000 : ℚ)) = 1000 := by
    unfold roundHalfUp
    norm_num
  simp only [jsToFixed3]
  rw [if_neg (by norm_num), hr]
  decide

lemma c10_fix0 : jsToFixed3 (.num (1 : ℚ)) = "1.000" := by
  have hr : roundHalfUp (1000 * (1 : ℚ)) = 1000 := by
    unfold roundHalfUp
    norm_num
  simp only [jsToFixed3]
  rw [if_neg (by norm_num), hr]
  decide

lemma c10_cast (w : ℕ) (T : ℚ) (h : ((6 : ℚ) - (w : ℚ)) = T) :
    calculateDisruptionProbability c10risk (((6 : ℕ) : ℚ) - (w : ℚ)) =
      calculateDisruptionProbability c10risk T := by
  rw [show (((6 : ℕ) : ℚ) - (w : ℚ)) = T by push_cast; linarith]

lemma c10_w0 : (mkForecastEntry c10risk 1 6 0).probability = "0.807" := by
  rw [mkForecastEntry_prob, c10_cast 0 6 (by norm_num), c10_p6, c10_fix6]

lemma c10_w1 : (mkForecastEntry c10risk 1 6 1).probability = "0.815" := by
  rw [mkForecastEntry_prob, c10_cast 1 5 (by norm_num), c10_p5, c10_fix5]

lemma c10_w2 : (mkForecastEntry c10risk 1 6 2).probability = "0.827" := by
  rw [mkForecastEntry_prob, c10_cast 2 4 (by norm_num), c10_p4, c10_fix4]

lemma c10_w3 : (mkForecastEntry c10risk 1 6 3).probability = "0.846" := by
  rw [mkForecastEntry_prob, c10_cast 3 3 (by norm_num), c10_p3, c10_fix3]

lemma c10_w4 : (mkForecastEntry c10risk 1 6 4).probability = "0.884" := by
  rw [mkForecastEntry_prob, c10_cast 4 2 (by norm_num), c10_p2, c10_fix2]

lemma c10_w5 : (mkForecastEntry c10risk 1 6 5).probability = "1.000" := by
  rw [mkForecastEntry_prob, c10_cast 5 1 (by norm_num), c10_p1, c10_fix1]

lemma c10_w6 : (mkForecastEntry c10risk 1 6 6).probability = "1.000" := by
  rw [mkForecastEntry_prob, c10_cast 6 0 (by norm_num), c10_p0, c10_fix0]

lemma c10_forecast_eq : (forecastDisruption c10risk 1 6).forecast =
    [mkForecastEntry c10risk 1 6 0, mkForecastEntry c10risk 1 6 1,
     mkForecastEntry c10risk 1 6 2, mkForecastEntry c10risk 1 6 3,
     mkForecastEntry c10risk 1 6 4, mkForecastEntry c10risk 1 6 5,
     mkForecastEntry c10risk 1 6 6] := by
  show (List.range 7).map (mkForecastEntry c10risk 1 6) = _
  rw [show List.range 7 = [0, 1, 2, 3, 4, 5, 6] from by decide]
  rfl

lemma c10_peak : (forecastDisruption c10risk 1 6).peak_risk_week =
    some (mkForecastEntry c10risk 1 6 5) := by
  have s01 : (("0.807" : String) < "0.815") = True :=
    eq_true (by rw [String.lt_iff_toList_lt]; decide)
  have s12 : (("0.815" : String) < "0.827") = True :=
    eq_true (by rw [String.lt_iff_toList_lt]; decide)
  have s23 : (("0.827" : String) < "0.846") = True :=
    eq_true (by rw [String.lt_iff_toList_lt]; decide)
  have s34 : (("0.846" : String) < "0.884") = True :=
    eq_true (by rw [String.lt_iff_toList_lt]; decide)
  have s45 : (("0.884" : String) < "1.000") = True :=
    eq_true (by rw [String.lt_iff_toList_lt]; decide)
  have s55 : (("1.000" : String) < "1.000") = False := eq_false (lt_irrefl _)
  show peakOf ((forecastDisruption c10risk 1 6).forecast) = _
  rw [c10_forecast_eq]
  simp only [peakOf, List.foldl_cons, List.foldl_nil,
    c10_w0, c10_w1, c10_w2, c10_w3, c10_w4, c10_w5, c10_w6,
    s01, s12, s23, s34, s45, s55, if_true, if_false]

/-- C10: every forecast entry's `probability` and `expected_disruption`
fields are decimal strings rendered by `toFixed(3)` — some whole number of
thousandths, so reported values are quantized to multiples of 0.001 — and the
peak-week scan compares these renderings, not the raw numerics: for the
concrete risk `c10risk` the returned peak is week 5, whose raw probability
0.9997 is strictly below the raw probability 1 at week 6 — both render as
"1.000" and the left-to-right scan keeps the first. -/
theorem forecast_fixed3_C10 :
    (∀ (r : RiskData) (e : ℚ) (H : ℕ), ValidRisk r → 0 ≤ e → e ≤ 1 →
      ∀ f ∈ (forecastDisruption r e H).forecast,
        (∃ n : ℕ, n ≤ 1000 ∧ f.probability = fmtThousandths n) ∧
        (∃ m : ℕ, m ≤ 1000 ∧ f.expected_disruption = fmtThousandths m)) ∧
    (forecastDisruption c10risk 1 6).peak_risk_week =
      some (mkForecastEntry c10risk 1 6 5) ∧
    (mkForecastEntry c10risk 1 6 5).week = 5 ∧
    (mkForecastEntry c10risk 1 6 5).probability = "1.000" ∧
    (mkForecastEntry c10risk 1 6 6).probability = "1.000" ∧
    calculateDisruptionProbability c10risk 1 = .num (9997/10000) ∧
    calculateDisruptionProbability c10risk 0 = .num 1 ∧
    (9997/10000 : ℚ) < 1 := by
  refine ⟨?_, c10_peak, rfl, c10_w5, c10_w6, c10_p1, c10_p0, by norm_num⟩
  intro r e H hv he0 he1 f hf
  obtain ⟨h1, h2, h3, h4⟩ := hv
  have hpos : 0 < sfpf r := sfpf_pos_of r (by linarith) h3
  simp only [forecastDisruption, List.mem_map] at hf
  obtain ⟨w, hw, rfl⟩ := hf
  obtain ⟨q, hq, hq0, hq1⟩ := calcDP_num_of_pos r ((H : ℚ) - (w : ℚ)) hpos
  constructor
  · rw [mkForecastEntry_prob, hq]
    exact jsToFixed3_quant hq0 hq1
  · rw [mkForecastEntry_ed, hq, jsMul_num, jsMul_num]
    have hd0 : (0 : ℚ) ≤ (19/20) ^ w := by positivity
    have hd1 : ((19 : ℚ)/20) ^ w ≤ 1 := pow_le_one₀ (by norm_num) (by norm_num)
    exact jsToFixed3_quant
      (mul_nonneg (mul_nonneg hq0 he0) hd0)
      (mul_le_one₀ (mul_le_one₀ hq1 he0 he1) hd0 hd1)

/-- Closed instance of C10: the first forecast entry's probability is one of
the 3-decimal renderings of 0..1000 thousandths. -/
theorem forecast_fixed3_C10_witness :
    (forecastDisruption c10risk 1 6).forecast.headI.probability ∈
      (List.range 1001).map fmtThousandths := by
  have hmem : (forecastDisruption c10risk 1 6).forecast.headI ∈
      (forecastDisruption c10risk 1 6).forecast := by
    rw [c10_forecast_eq]
    exact List.mem_cons_self _ _
  obtain ⟨n, hn, heq⟩ := (forecast_fixed3_C10.1 c10risk 1 6
    ⟨by norm_num [c10risk], by norm_num [c10risk], by norm_num [c10risk],
      by norm_num [c10risk]⟩ (by norm_num) (by norm_num)
    ((forecastDisruption c10risk 1 6).forecast.headI) hmem).1
  rw [heq]
  exact List.mem_map_of_mem _ (List.mem_range.mpr (by omega))

end RiskRadar
